import Mathlib

/-!
# Verification of the JOE tracker's opening-count extractor and weekly aggregator

Shallow embedding of the core logic of `process_xls_with_openings.py` and the
current-year truncation step of `generate_static_site.py`.

Strings are modelled as Lean `String`s processed as `List Char`; `str.lower()`
is modelled for the ASCII alphabet, and the regex character classes `\d` and
`\w` are modelled as their ASCII subsets, which is what the data contains.
Each regular expression used by `extract_position_count` is transcribed as an
explicit matcher: a function that attempts a match at one position (given the
previous character, for word boundaries) and a search driver that tries every
position left to right, mirroring `re.search`.
-/

/-- ASCII model of Python `str.lower()`, applied character-wise. -/
def asciiLower (c : Char) : Char :=
  if 'A' ≤ c ∧ c ≤ 'Z' then Char.ofNat (c.toNat + 32) else c

/-- Lowercase a whole character list. -/
def lowerStr (s : List Char) : List Char := s.map asciiLower

/-- ASCII model of the regex class `\w` (`[a-zA-Z0-9_]`). -/
def isWordCh (c : Char) : Bool := c.isAlphanum || c == '_'

/-- Split off the maximal leading run of ASCII digits (greedy `\d+`). -/
def takeDigits : List Char → List Char × List Char
  | [] => ([], [])
  | c :: cs =>
    if c.isDigit then
      let p := takeDigits cs
      (c :: p.1, p.2)
    else ([], c :: cs)

/-- Match a literal character sequence as a prefix, returning the rest. -/
def dropLit : List Char → List Char → Option (List Char)
  | [], s => some s
  | _ :: _, [] => none
  | l :: ls, c :: cs => if c = l then dropLit ls cs else none

/-- A matcher attempts a regex match anchored at one position of the subject:
it receives the character just before the position (for `\b`) and the suffix
starting at the position, and on success returns the captured group (or the
matched word for group-free patterns), standing for Python's match object.
Only the existence of the match is ever consumed: the extraction loop always
uses the pattern's paired integer value, never the capture (see
`firstMatch`). -/
def Matcher : Type := Option Char → List Char → Option (List Char)

/-- Regex `\((\d+) positions?\)` — e.g. "(4 positions)". -/
def matchParenPositions : Matcher := fun _ s =>
  match s with
  | '(' :: rest =>
    let p := takeDigits rest
    if p.1.isEmpty then none
    else
      match dropLit (" position".toList) p.2 with
      | none => none
      | some r2 =>
        match r2 with
        | 's' :: ')' :: _ => some p.1
        | ')' :: _ => some p.1
        | _ => none
  | _ => none

/-- Regex `(\d+) tenure[- ]?track position` (the body-text variant
`(\d+) tenure[- ]?track positions?` matches exactly the same subjects with the
same capture, since the trailing optional `s` constrains nothing). -/
def matchNTenureTrack : Matcher := fun _ s =>
  let p := takeDigits s
  if p.1.isEmpty then none
  else
    match dropLit (" tenure".toList) p.2 with
    | none => none
    | some r2 =>
      let tryTrack : List Char → Option (List Char) := fun r =>
        match dropLit ("track position".toList) r with
        | some _ => some p.1
        | none => none
      match r2 with
      | '-' :: r3 => tryTrack r3
      | ' ' :: r3 => tryTrack r3
      | _ => tryTrack r2

/-- Regex `(\d+) position` — e.g. "3 positions". -/
def matchNPosition : Matcher := fun _ s =>
  let p := takeDigits s
  if p.1.isEmpty then none
  else
    match dropLit (" position".toList) p.2 with
    | some _ => some p.1
    | none => none

/-- Regex `\bw\b` for a literal word `w`. -/
def matchWord (w : List Char) : Matcher := fun prev s =>
  let leftOk := match prev with
    | none => true
    | some c => !(isWordCh c)
  if leftOk then
    match dropLit w s with
    | some r =>
      match r with
      | [] => some w
      | c :: _ => if isWordCh c then none else some w
    | none => none
  else none

/-- Regex `we (?:are|have) (\d+) (?:openings|positions|vacancies)`. -/
def matchWeAreN : Matcher := fun _ s =>
  match dropLit ("we ".toList) s with
  | none => none
  | some r1 =>
    let afterVerb : Option (List Char) :=
      match dropLit ("are ".toList) r1 with
      | some r2 => some r2
      | none => dropLit ("have ".toList) r1
    match afterVerb with
    | none => none
    | some r2 =>
      let p := takeDigits r2
      if p.1.isEmpty then none
      else
        match p.2 with
        | ' ' :: r4 =>
          if (dropLit ("openings".toList) r4).isSome
              || (dropLit ("positions".toList) r4).isSome
              || (dropLit ("vacancies".toList) r4).isSome then
            some p.1
          else none
        | _ => none

/-- Regex `hiring (\d+) (?:assistant|associate|full)`. -/
def matchHiringN : Matcher := fun _ s =>
  match dropLit ("hiring ".toList) s with
  | none => none
  | some r1 =>
    let p := takeDigits r1
    if p.1.isEmpty then none
    else
      match p.2 with
      | ' ' :: r3 =>
        if (dropLit ("assistant".toList) r3).isSome
            || (dropLit ("associate".toList) r3).isSome
            || (dropLit ("full".toList) r3).isSome then
          some p.1
        else none
      | _ => none

/-- Regex `invites applications for (\d+)`. -/
def matchInvitesN : Matcher := fun _ s =>
  match dropLit ("invites applications for ".toList) s with
  | none => none
  | some r1 =>
    let p := takeDigits r1
    if p.1.isEmpty then none else some p.1

/-- Regex `we seek (\d+)`. -/
def matchWeSeekN : Matcher := fun _ s =>
  match dropLit ("we seek ".toList) s with
  | none => none
  | some r1 =>
    let p := takeDigits r1
    if p.1.isEmpty then none else some p.1

/-- Regex `recruiting (\d+)`. -/
def matchRecruitingN : Matcher := fun _ s =>
  match dropLit ("recruiting ".toList) s with
  | none => none
  | some r1 =>
    let p := takeDigits r1
    if p.1.isEmpty then none else some p.1

/-- Regex `we (?:are|have) w` for a literal word `w`. -/
def matchWeAreWord (w : List Char) : Matcher := fun _ s =>
  match dropLit ("we ".toList) s with
  | none => none
  | some r1 =>
    let afterVerb : Option (List Char) :=
      match dropLit ("are".toList) r1 with
      | some r2 => some r2
      | none => dropLit ("have".toList) r1
    match afterVerb with
    | none => none
    | some r2 =>
      match dropLit ((' ' :: w)) r2 with
      | some _ => some w
      | none => none

/-- `re.search` semantics: try the matcher at every position, leftmost first,
threading the previous character for word-boundary tests. -/
def searchFrom (m : Matcher) : Option Char → List Char → Option (List Char)
  | prev, [] => m prev []
  | prev, c :: cs =>
    match m prev (c :: cs) with
    | some g => some g
    | none => searchFrom m (some c) cs

/-- Search a whole subject string with a matcher (model of `re.search`). -/
def reSearch (m : Matcher) (s : List Char) : Option (List Char) :=
  searchFrom m none s

/-- The ordered title pattern list `number_patterns` of
`extract_position_count` (process_xls_with_openings.py lines 22-33): pairs
`(regex, value)` exactly as in the source, where the numeric-capture
patterns carry the tuple value 1. -/
def titlePatterns : List (Matcher × Nat) :=
  [(matchParenPositions, 1),
   (matchNTenureTrack, 1),
   (matchNPosition, 1),
   (matchWord ("two".toList), 2),
   (matchWord ("three".toList), 3),
   (matchWord ("four".toList), 4),
   (matchWord ("five".toList), 5),
   (matchWord ("six".toList), 6),
   (matchWord ("several".toList), 3),
   (matchWord ("multiple".toList), 2)]

/-- The ordered body-text pattern list `text_patterns` of
`extract_position_count` (process_xls_with_openings.py lines 49-60), again
as the source's `(regex, value)` pairs. -/
def textPatterns : List (Matcher × Nat) :=
  [(matchWeAreN, 1),
   (matchNTenureTrack, 1),
   (matchHiringN, 1),
   (matchInvitesN, 1),
   (matchWeSeekN, 1),
   (matchRecruitingN, 1),
   (matchWeAreWord ("two".toList), 2),
   (matchWeAreWord ("three".toList), 3),
   (matchWeAreWord ("four".toList), 4),
   (matchWeAreWord ("five".toList), 5)]

/-- First-match-wins scan of an ordered `(pattern, value)` list: the
`for pattern, value ... break` loops of `extract_position_count`.  Every
`value` in both lists is an integer literal, so the source's
`isinstance(value, int)` test always succeeds and the loop assigns
`count = value`; the `else` branch `count = int(match.group(1))` is
unreachable dead code, and the captured number is never used. -/
def firstMatch : List (Matcher × Nat) → List Char → Option Nat
  | [], _ => none
  | mv :: ms, s =>
    match reSearch mv.1 s with
    | some _ => some mv.2
    | none => firstMatch ms s

/-- Count determined by the title scan: the first matching title pattern's
tuple value, or the default 1 when no title pattern matches. -/
def countFromTitle (title : String) : Nat :=
  (firstMatch titlePatterns (lowerStr title.toList)).getD 1

/-- Count determined by the body scan over the first 1000 characters of the
lowercased body text, defaulting to 1.  As in the title scan, only the
tuple values are assigned; the source's `try: count = int(match.group(1))`
fallback is dead code. -/
def countFromBody (body : String) : Nat :=
  (firstMatch textPatterns ((lowerStr body.toList).take 1000)).getD 1

/-- `extract_position_count` (process_xls_with_openings.py lines 12-75):
title scan first; the body scan runs exactly when the count is still 1;
the final result is capped at 10. -/
def extract_position_count (title body : String) : Nat :=
  let count := countFromTitle title
  let count2 := if count = 1 then countFromBody body else count
  min count2 10

/-- One processed posting row as fed to `create_weekly_cumulative`: the
columns `academic_year`, `iso_week` (computed by `analyze_date_fields`) and
`position_count` (computed by `extract_position_count`, hence a natural
number). -/
structure JRecord where
  academic_year : Int
  iso_week : Nat
  position_count : Nat
deriving DecidableEq

/-- The output record per academic year built by `create_weekly_cumulative`
(process_xls_with_openings.py lines 210-215). -/
structure WeeklySeries where
  weeks : List Nat
  cumulative : List Nat
  total : Nat
  postings : Nat
deriving DecidableEq

/-- The fixed week window `range(30, 58)`, i.e. ISO weeks 30..57. -/
def weeksRange : List Nat := List.range' 30 28

/-- `year_data.groupby('iso_week')['position_count'].sum()` looked up at week
`w`: the summed opening count of the records of that week (0 when the week is
absent from the index, matching the `if week in week_openings.index` guard). -/
def weekSum (recs : List JRecord) (w : Nat) : Nat :=
  ((recs.filter (fun r => r.iso_week == w)).map (fun r => r.position_count)).sum

/-- The `for week in weeks` loop of `create_weekly_cumulative`: starting from
the running total `acc`, produce the cumulative list and the final
`total_so_far`. -/
def buildCum (recs : List JRecord) : List Nat → Nat → List Nat × Nat
  | [], acc => ([], acc)
  | w :: ws, acc =>
    let acc' := acc + weekSum recs w
    let p := buildCum recs ws acc'
    (acc' :: p.1, p.2)

/-- The `weekly_data[ac_year]` entry built for one academic-year group. -/
def mkYearSeries (group : List JRecord) : WeeklySeries :=
  let p := buildCum group weeksRange 0
  { weeks := weeksRange, cumulative := p.1, total := p.2, postings := group.length }

/-- `sorted(df['academic_year'].unique())`. -/
def sortedYears (recs : List JRecord) : List Int :=
  List.insertionSort (fun a b => a ≤ b) ((recs.map (fun r => r.academic_year)).dedup)

/-- `create_weekly_cumulative` (process_xls_with_openings.py lines 184-224):
the mapping from academic year to its `WeeklySeries`, as an association list
over the sorted distinct years. -/
def create_weekly_cumulative (recs : List JRecord) : List (Int × WeeklySeries) :=
  (sortedYears recs).map
    (fun y => (y, mkYearSeries (recs.filter (fun r => r.academic_year == y))))

/-- The academic-year assignment of `analyze_date_fields`
(process_xls_with_openings.py lines 158-161):
`x.year if x.month >= 8 else x.year - 1`. -/
def academic_year (year : Int) (month : Nat) : Int :=
  if 8 ≤ month then year else year - 1

/-- The current-year truncation loop of `generate_data_json`
(generate_static_site.py lines 61-65):
`for i in range(len(cumulative) - 1, 0, -1)` — the argument `n` plays the
role of the Python loop index (visiting `n, n-1, ..., 1`), and on the first
strict increase both lists are cut to `[:i+1]`. -/
def truncScan (weeks cumulative : List Nat) : Nat → List Nat × List Nat
  | 0 => (weeks, cumulative)
  | i + 1 =>
    if cumulative.getD i 0 < cumulative.getD (i + 1) 0 then
      (weeks.take (i + 2), cumulative.take (i + 2))
    else truncScan weeks cumulative i

/-- The current-year truncation applied by the presentation caller
(generate_static_site.py lines 58-65), including its `len(weeks) > 0` guard. -/
def truncate_current_year (weeks cumulative : List Nat) : List Nat × List Nat :=
  if weeks.length = 0 then (weeks, cumulative)
  else truncScan weeks cumulative (cumulative.length - 1)

example : truncate_current_year [30, 31, 32, 33] [0, 2, 3, 3] = ([30, 31, 32], [0, 2, 3]) := by decide
example : truncate_current_year [30, 31, 32, 33] [5, 5, 5, 5] = ([30, 31, 32, 33], [5, 5, 5, 5]) := by decide
example : truncate_current_year [30, 31, 32, 33] [0, 1, 2, 3] = ([30, 31, 32, 33], [0, 1, 2, 3]) := by decide
example : academic_year 2024 9 = 2024 := by decide
example : academic_year 2025 3 = 2024 := by decide
example :
    create_weekly_cumulative [⟨2024, 37, 1⟩, ⟨2024, 38, 3⟩, ⟨2024, 10, 2⟩] =
      [(2024, mkYearSeries [⟨2024, 37, 1⟩, ⟨2024, 38, 3⟩, ⟨2024, 10, 2⟩])] := by decide
example : (mkYearSeries [⟨2024, 37, 1⟩, ⟨2024, 38, 3⟩, ⟨2024, 10, 2⟩]).total = 4 := by decide
example : (mkYearSeries [⟨2024, 37, 1⟩, ⟨2024, 38, 3⟩, ⟨2024, 10, 2⟩]).postings = 3 := by decide
example : create_weekly_cumulative [] = [] := by decide

example : extract_position_count "(4 positions)" "" = 1 := by decide
example : extract_position_count "two tenure-track jobs" "" = 2 := by decide
example : extract_position_count "99 positions" "" = 1 := by decide
example : extract_position_count "0 positions" "" = 1 := by decide
example : extract_position_count "assistant professor" "" = 1 := by decide
example : extract_position_count "several openings" "" = 3 := by decide
example : extract_position_count "several (4 positions)" "" = 1 := by decide
example : extract_position_count "(1 position)" "we seek 3 economists" = 1 := by decide
example : extract_position_count "economics dept" "we have three openings" = 3 := by decide
example : extract_position_count "economics dept" "we have 4 openings" = 1 := by decide
example : extract_position_count "economics dept" "hiring 2 assistant professors" = 1 := by decide
example : extract_position_count "network economics" "" = 1 := by decide

/-- A first-match scan over patterns that all fail to match yields nothing. -/
theorem firstMatch_eq_none (ms : List (Matcher × Nat)) (s : List Char)
    (h : ∀ m ∈ ms, reSearch m.1 s = none) : firstMatch ms s = none := by
  induction ms with
  | nil => rfl
  | cons m ms ih =>
    have h1 : reSearch m.1 s = none := h m (List.mem_cons_self m ms)
    have h2 := ih (fun q hq => h q (List.mem_cons_of_mem m hq))
    simp [firstMatch, h1, h2]

/-- A successful first-match scan returns one of the listed tuple values. -/
theorem firstMatch_mem_values (ms : List (Matcher × Nat)) (s : List Char)
    (v : Nat) (h : firstMatch ms s = some v) : v ∈ ms.map Prod.snd := by
  induction ms with
  | nil => cases h
  | cons mv ms ih =>
    simp only [firstMatch] at h
    cases hm : reSearch mv.1 s with
    | some g =>
      rw [hm] at h
      simp only [Option.some.injEq] at h
      subst h
      exact List.mem_cons_self _ _
    | none =>
      rw [hm] at h
      exact List.mem_cons_of_mem _ (ih h)

/-- The title scan only ever produces the tuple values 1..6 of
`number_patterns` (or the default 1). -/
theorem countFromTitle_bounds (t : String) :
    1 ≤ countFromTitle t ∧ countFromTitle t ≤ 6 := by
  unfold countFromTitle
  cases h : firstMatch titlePatterns (lowerStr t.toList) with
  | none => simp
  | some v =>
    have hv := firstMatch_mem_values _ _ _ h
    have hall : ∀ w ∈ titlePatterns.map Prod.snd, 1 ≤ w ∧ w ≤ 6 := by decide
    simpa using hall v hv

/-- The body scan only ever produces the tuple values 1..5 of
`text_patterns` (or the default 1). -/
theorem countFromBody_bounds (b : String) :
    1 ≤ countFromBody b ∧ countFromBody b ≤ 5 := by
  unfold countFromBody
  cases h : firstMatch textPatterns ((lowerStr b.toList).take 1000) with
  | none => simp
  | some v =>
    have hv := firstMatch_mem_values _ _ _ h
    have hall : ∀ w ∈ textPatterns.map Prod.snd, 1 ≤ w ∧ w ≤ 5 := by decide
    simpa using hall v hv

/-- C1 (amended): `extract_position_count` always returns an integer in
[1, 10].  The bound is not produced by clamping: the loop only ever assigns
the pattern tuple values, which lie in {1, ..., 6}, so `min(count, 10)`
never truncates — see the counterexample, where the captured count 99 is
ignored and the result is 1, not 10. -/
theorem extract_position_count_bounds (t b : String) :
    1 ≤ extract_position_count t b ∧ extract_position_count t b ≤ 10 := by
  rcases countFromTitle_bounds t with ⟨h1, h2⟩
  rcases countFromBody_bounds b with ⟨h3, h4⟩
  unfold extract_position_count
  by_cases h : countFromTitle t = 1 <;> simp [h] <;> omega

/-- Witness for C1 (amended) at a concrete title and body. -/
theorem extract_position_count_bounds_witness :
    1 ≤ extract_position_count "several openings" "we have three openings"
    ∧ extract_position_count "several openings" "we have three openings" ≤ 10 :=
  extract_position_count_bounds "several openings" "we have three openings"

/-- C1 counterexample: the claim's clamping clause fails — a title
containing "99 positions" yields 1, not 10, because the matching pattern's
tuple value 1 is assigned and the captured 99 is never converted
(`isinstance(value, int)` is always true, so `int(match.group(1))` is dead
code). -/
theorem extract_no_clamp_cex :
    extract_position_count "99 positions" "" = 1 := by decide

/-- C7: when no title pattern matches the lowercased title and no body
pattern matches the first 1000 characters of the lowercased body text,
`extract_position_count` returns exactly 1. -/
theorem extract_position_count_default_one (title body : String)
    (ht : ∀ m ∈ titlePatterns, reSearch m.1 (lowerStr title.toList) = none)
    (hb : ∀ m ∈ textPatterns, reSearch m.1 ((lowerStr body.toList).take 1000) = none) :
    extract_position_count title body = 1 := by
  have h1 : countFromTitle title = 1 := by
    unfold countFromTitle
    rw [firstMatch_eq_none _ _ ht]
    rfl
  have h2 : countFromBody body = 1 := by
    unfold countFromBody
    rw [firstMatch_eq_none _ _ hb]
    rfl
  simp [extract_position_count, h1, h2]

/-- Witness for C7 at a concrete unmatched title and body. -/
theorem extract_position_count_default_one_witness :
    extract_position_count "assistant professor" "apply online" = 1 :=
  extract_position_count_default_one "assistant professor" "apply online"
    (by decide) (by decide)

/-- C5 (amended): the body pattern list is consulted exactly when the count
after the title phase equals 1 — whether because no title pattern matched or
because the matching title pattern carries the tuple value 1 (as all three
numeric-capture title patterns do).  When the title phase yields a count
other than 1, the body text is irrelevant to the result; when it yields 1,
the result is the body-scan count capped at 10. -/
theorem body_scan_iff_title_count_one :
    (∀ t b b' : String, countFromTitle t ≠ 1 →
      extract_position_count t b = extract_position_count t b')
    ∧ (∀ t b : String, countFromTitle t = 1 →
      extract_position_count t b = min (countFromBody b) 10) := by
  constructor
  · intro t b b' h
    simp [extract_position_count, h]
  · intro t b h
    simp [extract_position_count, h]

/-- Witness for C5 (amended): a title whose title-phase count is 2 — the
word pattern "two" — gives the same result whatever the body says. -/
theorem body_scan_iff_title_count_one_witness :
    extract_position_count "two openings" "we have three openings" =
      extract_position_count "two openings" "" :=
  body_scan_iff_title_count_one.1 "two openings" "we have three openings" ""
    (by decide)

/-- C5 counterexample: the title "(1 position)" matches the first title
pattern (whose tuple value is 1), yet the body is still searched and its
match "we have three" determines the result 3, contradicting the claim that
any title match suppresses the body scan. -/
theorem body_scan_after_title_match_cex :
    (reSearch matchParenPositions (lowerStr ("(1 position)".toList))).isSome = true
    ∧ extract_position_count "(1 position)" "we have three openings" = 3 := by
  decide

/-- C6 (code evaluation at the failing input): the title
"several (4 positions)" is matched first by the parenthesized pattern, yet
the function returns 1 — the pattern's tuple value — not the captured 4 the
claim (and the source's own pattern comments and dead
`count = int(match.group(1))` branch) call for. -/
theorem extract_several_paren_eval :
    (reSearch matchParenPositions (lowerStr ("several (4 positions)".toList))).isSome = true
    ∧ extract_position_count "several (4 positions)" "" = 1 := by
  decide

/-- C8: `academic_year` equals `Y` exactly for the dates from August of
year `Y` through July of year `Y + 1`. -/
theorem academic_year_spec (year : Int) (month : Nat)
    (hm1 : 1 ≤ month) (hm2 : month ≤ 12) (Y : Int) :
    academic_year year month = Y ↔
      ((year = Y ∧ 8 ≤ month) ∨ (year = Y + 1 ∧ month ≤ 7)) := by
  unfold academic_year
  split_ifs with h
  · constructor
    · intro he
      exact Or.inl ⟨he, h⟩
    · rintro (⟨he, _⟩ | ⟨he, hm⟩)
      · exact he
      · omega
  · constructor
    · intro he
      refine Or.inr ⟨by omega, by omega⟩
    · rintro (⟨he, hm⟩ | ⟨he, hm⟩) <;> omega

/-- Witness for C8: March 2025 belongs to academic year 2024. -/
theorem academic_year_spec_witness :
    academic_year 2025 3 = 2024 ↔
      (((2025 : Int) = 2024 ∧ 8 ≤ 3) ∨ ((2025 : Int) = 2024 + 1 ∧ 3 ≤ 7)) :=
  academic_year_spec 2025 3 (by decide) (by decide) 2024

/-- C9: an empty record collection produces an empty mapping, without
signalling an error (`create_weekly_cumulative` is a total function). -/
theorem create_weekly_cumulative_empty : create_weekly_cumulative [] = [] := by
  decide

/-- Splitting off a record changes each week's summed count by that record's
contribution to exactly the week it belongs to. -/
theorem weekSum_cons (r : JRecord) (rs : List JRecord) (w : Nat) :
    weekSum (r :: rs) w =
      (if r.iso_week = w then r.position_count else 0) + weekSum rs w := by
  unfold weekSum
  by_cases h : r.iso_week = w
  · simp [List.filter_cons, h]
  · simp [List.filter_cons, h]

/-- Summing an indicator over a duplicate-free list collapses to a single
membership test. -/
theorem sum_map_ite_eq (W : List Nat) (hW : W.Nodup) (k c : Nat) :
    (W.map (fun w => if k = w then c else 0)).sum =
      if k ∈ W then c else 0 := by
  induction W with
  | nil => simp
  | cons w W ih =>
    have hW' : W.Nodup := (List.nodup_cons.mp hW).2
    have hw : w ∉ W := (List.nodup_cons.mp hW).1
    by_cases h : k = w
    · subst h
      simp [ih hW', hw]
    · simp [h, ih hW']

/-- Exchanging the order of summation: the per-week sums over a
duplicate-free week list add up to the opening counts of exactly the records
whose week lies in that list. -/
theorem sum_weekSum (W : List Nat) (hW : W.Nodup) (recs : List JRecord) :
    (W.map (weekSum recs)).sum =
      ((recs.filter (fun r => decide (r.iso_week ∈ W))).map
        (fun r => r.position_count)).sum := by
  induction recs with
  | nil =>
    have h : ∀ w, weekSum ([] : List JRecord) w = 0 := by
      intro w
      simp [weekSum]
    rw [List.map_congr_left (fun w _ => h w)]
    simp
  | cons r rs ih =>
    have hmap : W.map (weekSum (r :: rs)) =
        W.map (fun w => (if r.iso_week = w then r.position_count else 0) + weekSum rs w) :=
      List.map_congr_left (fun w _ => weekSum_cons r rs w)
    rw [hmap, List.sum_map_add, sum_map_ite_eq W hW, ih]
    by_cases h : r.iso_week ∈ W
    · simp [List.filter_cons, h]
    · simp [List.filter_cons, h]

/-- The final running total of the cumulative loop is the start value plus
every week's summed count. -/
theorem buildCum_snd (recs : List JRecord) :
    ∀ (ws : List Nat) (acc : Nat),
      (buildCum recs ws acc).2 = acc + (ws.map (weekSum recs)).sum := by
  intro ws
  induction ws with
  | nil => intro acc; simp [buildCum]
  | cons w ws ih =>
    intro acc
    simp only [buildCum, ih, List.map_cons, List.sum_cons]
    omega

/-- The last entry of the cumulative list is the final running total. -/
theorem buildCum_getLastD (recs : List JRecord) :
    ∀ (ws : List Nat) (acc : Nat),
      ((buildCum recs ws acc).1).getLastD acc = (buildCum recs ws acc).2 := by
  intro ws
  induction ws with
  | nil => intro acc; rfl
  | cons w ws ih =>
    intro acc
    simp only [buildCum, List.getLastD_cons]
    exact ih (acc + weekSum recs w)

/-- The cumulative list has one entry per week of the window. -/
theorem buildCum_length (recs : List JRecord) :
    ∀ (ws : List Nat) (acc : Nat), (buildCum recs ws acc).1.length = ws.length := by
  intro ws
  induction ws with
  | nil => intro acc; rfl
  | cons w ws ih => intro acc; simp [buildCum, ih]

/-- The cumulative loop never decreases: each entry adds a natural number to
the previous running total. -/
theorem buildCum_chain (recs : List JRecord) :
    ∀ (ws : List Nat) (acc : Nat),
      List.Chain' (· ≤ ·) (acc :: (buildCum recs ws acc).1) := by
  intro ws
  induction ws with
  | nil => intro acc; simp [buildCum]
  | cons w ws ih =>
    intro acc
    simp only [buildCum, List.chain'_cons]
    exact ⟨Nat.le_add_right _ _, ih (acc + weekSum recs w)⟩

/-- The week window is duplicate-free. -/
theorem weeksRange_nodup : weeksRange.Nodup :=
  (List.pairwise_lt_range' 30 28 1 (by decide)).imp (fun h => Nat.ne_of_lt h)

/-- Membership of a week in the fixed window is the interval test 30..57. -/
theorem mem_weeksRange (m : Nat) :
    (decide (m ∈ weeksRange)) = decide (30 ≤ m ∧ m ≤ 57) := by
  rw [decide_eq_decide]
  unfold weeksRange
  rw [List.mem_range'_1]
  omega

/-- C2: every series of the produced mapping has `total` equal to the summed
opening count of exactly the records of its academic-year group whose
`iso_week` lies in [30, 57], `total` equal to the last cumulative entry, and
`postings` equal to the full size of the group, out-of-window records
included. -/
theorem create_weekly_cumulative_totals (recs : List JRecord) (y : Int)
    (s : WeeklySeries) (hmem : (y, s) ∈ create_weekly_cumulative recs) :
    s.total = (((recs.filter (fun r => r.academic_year == y)).filter
        (fun r => decide (30 ≤ r.iso_week ∧ r.iso_week ≤ 57))).map
        (fun r => r.position_count)).sum
    ∧ s.cumulative.getLastD 0 = s.total
    ∧ s.postings = (recs.filter (fun r => r.academic_year == y)).length := by
  rcases List.mem_map.mp hmem with ⟨y', _, heq⟩
  have hy : y' = y := congrArg Prod.fst heq
  subst hy
  have hs : mkYearSeries (recs.filter (fun r => r.academic_year == y')) = s :=
    congrArg Prod.snd heq
  subst hs
  set group := recs.filter (fun r => r.academic_year == y') with hgroup
  refine ⟨?_, ?_, rfl⟩
  · show (buildCum group weeksRange 0).2 = _
    rw [buildCum_snd, sum_weekSum weeksRange weeksRange_nodup]
    have : (fun r : JRecord => decide (r.iso_week ∈ weeksRange)) =
        (fun r : JRecord => decide (30 ≤ r.iso_week ∧ r.iso_week ≤ 57)) := by
      funext r
      exact mem_weeksRange r.iso_week
    rw [this]
    exact Nat.zero_add _
  · show ((buildCum group weeksRange 0).1).getLastD 0 = (buildCum group weeksRange 0).2
    exact buildCum_getLastD group weeksRange 0

/-- C3: every produced series has `weeks` equal to the fixed strictly
increasing window 30..57 of 28 entries, a cumulative list of the same
length, with every entry a non-negative integer and adjacent entries
non-decreasing. -/
theorem create_weekly_cumulative_shape (recs : List JRecord) (y : Int)
    (s : WeeklySeries) (hmem : (y, s) ∈ create_weekly_cumulative recs) :
    s.weeks = List.range' 30 28
    ∧ s.weeks.length = 28
    ∧ List.Chain' (· < ·) s.weeks
    ∧ s.cumulative.length = s.weeks.length
    ∧ (∀ x ∈ s.cumulative, 0 ≤ x)
    ∧ List.Chain' (· ≤ ·) s.cumulative := by
  rcases List.mem_map.mp hmem with ⟨y', _, heq⟩
  have hs : mkYearSeries (recs.filter (fun r => r.academic_year == y')) = s :=
    congrArg Prod.snd heq
  subst hs
  set group := recs.filter (fun r => r.academic_year == y') with hgroup
  refine ⟨rfl, by simp [mkYearSeries, weeksRange], ?_, ?_, ?_, ?_⟩
  · exact (List.pairwise_lt_range' 30 28 1 (by decide)).chain'
  · show (buildCum group weeksRange 0).1.length = weeksRange.length
    exact buildCum_length group weeksRange 0
  · intro x _
    exact Nat.zero_le x
  · show List.Chain' (· ≤ ·) (buildCum group weeksRange 0).1
    exact (buildCum_chain group weeksRange 0).tail

/-- Concrete input for the aggregator witnesses: two in-window postings of
academic year 2024 (weeks 37 and 38) and one out-of-window March posting
(week 10). -/
def recsEx : List JRecord := [⟨2024, 37, 1⟩, ⟨2024, 38, 3⟩, ⟨2024, 10, 2⟩]

/-- The 2024 series the aggregator builds from `recsEx`. -/
def seriesEx : WeeklySeries :=
  mkYearSeries (recsEx.filter (fun r => r.academic_year == (2024 : Int)))

/-- Witness for C2: on `recsEx` the 2024 series totals the two in-window
counts only, while `postings` also counts the March record. -/
theorem create_weekly_cumulative_totals_witness :
    seriesEx.total = (((recsEx.filter (fun r => r.academic_year == (2024 : Int))).filter
        (fun r => decide (30 ≤ r.iso_week ∧ r.iso_week ≤ 57))).map
        (fun r => r.position_count)).sum
    ∧ seriesEx.cumulative.getLastD 0 = seriesEx.total
    ∧ seriesEx.postings = (recsEx.filter (fun r => r.academic_year == (2024 : Int))).length :=
  create_weekly_cumulative_totals recsEx 2024 seriesEx (by decide)

/-- Witness for C3 at the concrete input `recsEx`. -/
theorem create_weekly_cumulative_shape_witness :
    seriesEx.weeks = List.range' 30 28
    ∧ seriesEx.weeks.length = 28
    ∧ List.Chain' (· < ·) seriesEx.weeks
    ∧ seriesEx.cumulative.length = seriesEx.weeks.length
    ∧ (∀ x ∈ seriesEx.cumulative, 0 ≤ x)
    ∧ List.Chain' (· ≤ ·) seriesEx.cumulative :=
  create_weekly_cumulative_shape recsEx 2024 seriesEx (by decide)

/-- The truncation loop stops at index `i` when the strict increase at `i`
is the last one up to the loop's starting index. -/
theorem truncScan_spec (weeks cum : List Nat) (i : Nat) (h1 : 1 ≤ i)
    (hinc : cum.getD (i - 1) 0 < cum.getD i 0) :
    ∀ k, i ≤ k →
      (∀ j, i < j → j ≤ k → ¬ cum.getD (j - 1) 0 < cum.getD j 0) →
      truncScan weeks cum k = (weeks.take (i + 1), cum.take (i + 1)) := by
  intro k
  induction k with
  | zero => intro hik _; omega
  | succ k ih =>
    intro hik hnone
    by_cases hc : cum.getD k 0 < cum.getD (k + 1) 0
    · have hik' : i = k + 1 := by
        by_contra hne
        exact (hnone (k + 1) (by omega) (le_refl _)) hc
      subst hik'
      simp only [truncScan]
      rw [if_pos hc]
    · have hik2 : i ≤ k := by
        rcases Nat.lt_or_ge i (k + 1) with h | h
        · omega
        · exfalso
          have : i = k + 1 := by omega
          subst this
          exact hc (by simpa using hinc)
      simp only [truncScan, if_neg hc]
      exact ih hik2 (fun j hj1 hj2 => hnone j hj1 (by omega))

/-- C4: the current-year truncation cuts both lists to end exactly at the
last index `i ≥ 1` where the cumulative value strictly increased from its
predecessor, leaving everything before that index unchanged (the results are
prefixes of the originals). -/
theorem truncate_at_last_increase (weeks cum : List Nat) (i : Nat)
    (h1 : 1 ≤ i) (h2 : i < cum.length)
    (hinc : cum.getD (i - 1) 0 < cum.getD i 0)
    (hlast : ∀ j, j < cum.length → 1 ≤ j → cum.getD (j - 1) 0 < cum.getD j 0 → j ≤ i)
    (hw : weeks.length ≠ 0) :
    truncate_current_year weeks cum = (weeks.take (i + 1), cum.take (i + 1))
    ∧ weeks.take (i + 1) <+: weeks ∧ cum.take (i + 1) <+: cum := by
  refine ⟨?_, List.take_prefix _ _, List.take_prefix _ _⟩
  unfold truncate_current_year
  rw [if_neg hw]
  apply truncScan_spec weeks cum i h1 hinc (cum.length - 1) (by omega)
  intro j hj1 hj2 hj3
  have := hlast j (by omega) (by omega) hj3
  omega

/-- Witness for C4: in [0, 2, 3, 3] the last strict increase is at index 2,
so the lists are cut to their first three entries. -/
theorem truncate_at_last_increase_witness :
    truncate_current_year [30, 31, 32, 33] [0, 2, 3, 3] =
      ([30, 31, 32, 33].take 3, [0, 2, 3, 3].take 3)
    ∧ [30, 31, 32, 33].take 3 <+: [30, 31, 32, 33]
    ∧ [0, 2, 3, 3].take 3 <+: [0, 2, 3, 3] :=
  truncate_at_last_increase [30, 31, 32, 33] [0, 2, 3, 3] 2
    (by decide) (by decide) (by decide) (by decide) (by decide)

/-- The truncation loop leaves the lists unchanged when no index up to its
starting point carries a strict increase. -/
theorem truncScan_none (weeks cum : List Nat) :
    ∀ k, (∀ j, 1 ≤ j → j ≤ k → ¬ cum.getD (j - 1) 0 < cum.getD j 0) →
      truncScan weeks cum k = (weeks, cum) := by
  intro k
  induction k with
  | zero => intro _; rfl
  | succ k ih =>
    intro h
    have hc : ¬ cum.getD k 0 < cum.getD (k + 1) 0 := by
      have := h (k + 1) (by omega) (le_refl _)
      simpa using this
    simp only [truncScan, if_neg hc]
    exact ih (fun j hj1 hj2 => h j hj1 (by omega))

/-- C10: a cumulative series with no strict increase at any index `i ≥ 1`
(an all-constant series) passes through the current-year truncation entirely
unchanged rather than being cut to a single point. -/
theorem truncate_unchanged_without_increase (weeks cum : List Nat)
    (hnone : ∀ j, j < cum.length → 1 ≤ j → ¬ cum.getD (j - 1) 0 < cum.getD j 0) :
    truncate_current_year weeks cum = (weeks, cum) := by
  unfold truncate_current_year
  split_ifs with h
  · rfl
  · exact truncScan_none weeks cum (cum.length - 1)
      (fun j hj1 hj2 hj3 => (hnone j (by omega) hj1) hj3)

/-- Witness for C10: a constant 28-entry cumulative series keeps its full
28-entry length. -/
theorem truncate_unchanged_witness :
    truncate_current_year (List.range' 30 28) (List.replicate 28 5) =
      (List.range' 30 28, List.replicate 28 5) :=
  truncate_unchanged_without_increase (List.range' 30 28) (List.replicate 28 5)
    (by decide)
